import Mathlib

/-!
Verification of the session lifecycle and authenticated-request
orchestration layer of the CMRU-API repository.

The definitions below are a shallow embedding of the TypeScript source:

* `src/cli/endpoints.ts`        — `ApiError`, `handleApiError`
* `src/api/manager/session-manager.ts` — `SessionManager`
* `src/api/bus.api.ts`          — `CmruBusApiClient` (login protocol,
                                  retry loop, schedule fetching)
* `src/api/reg.api.ts`          — `Reg.login` / `RegApiClient.login`

JavaScript `Date.now()` is modelled by an explicit `now : Nat` argument,
`Math.random()` salts by explicit string arguments, and the HTTP transport
by explicit response values / oracles.  Async control flow is modelled by
an event-loop small-step semantics: a synchronous code segment (no `await`
inside) is one atomic step.
-/

namespace CmruApi

/-- `charsStartWith pat s` is true iff `s` starts with `pat`. -/
def charsStartWith : List Char → List Char → Bool
  | [], _ => true
  | _ :: _, [] => false
  | p :: ps, c :: cs => p == c && charsStartWith ps cs

/-- `charsContain s pat` is true iff `pat` occurs as a contiguous run in `s`. -/
def charsContain : List Char → List Char → Bool
  | [], pat => charsStartWith pat []
  | c :: cs, pat => charsStartWith pat (c :: cs) || charsContain cs pat

/-- JavaScript `String.prototype.includes`: `strContains s pat` is true iff
`pat` occurs as a substring of `s`. -/
def strContains (s pat : String) : Bool :=
  charsContain s.data pat.data

/-- JavaScript `String.prototype.toLowerCase`, restricted to the ASCII range
(`Char.toLower`); every cased character in the classified messages is ASCII. -/
def lowerStr (s : String) : String :=
  ⟨s.data.map Char.toLower⟩

/-- JavaScript `String.prototype.trim`: strip whitespace from both ends. -/
def strTrim (s : String) : String :=
  ⟨((s.data.dropWhile Char.isWhitespace).reverse.dropWhile Char.isWhitespace).reverse⟩

instance {ε α : Type} [DecidableEq ε] [DecidableEq α] : DecidableEq (Except ε α) := fun a b =>
  match a, b with
  | .ok x, .ok y => if h : x = y then isTrue (by rw [h]) else isFalse (by simp [h])
  | .ok _, .error _ => isFalse (by simp)
  | .error _, .ok _ => isFalse (by simp)
  | .error x, .error y => if h : x = y then isTrue (by rw [h]) else isFalse (by simp [h])

/-! ## Error classification (`src/cli/endpoints.ts`, `handleApiError`) -/

inductive ErrorCategory where
  | validation
  | auth
  | session
  | network
  | server
  | unknown
deriving DecidableEq, Repr

/-- The `ApiError` class of `endpoints.ts`: message, HTTP status, category. -/
structure ApiError where
  message : String
  statusCode : Nat
  errorType : ErrorCategory
deriving DecidableEq, Repr

/-- Thai backend literal: "please enter a correct ID and password". -/
def thaiWrongIdPassword : String := "กรุณาป้อนรหัสประจำตัวและรหัสผ่านให้ถูกต้อง"

/-- Thai backend literal: "cannot log in, wrong password entered more than …". -/
def thaiTooManyAttempts : String := "ไม่สามารถเข้าสู่ระบบได้เนื่องจากระบุรหัสผิดเกิน"

/-- The message-classification chain of `handleApiError` for a plain
`Error` instance (the `error instanceof Error` branch), translated
condition by condition from `endpoints.ts` lines 93-126. -/
def classifyErrorMessage (message : String) : ApiError :=
  let ml := lowerStr message
  if strContains message thaiWrongIdPassword then
    ⟨message, 401, .auth⟩
  else if strContains message thaiTooManyAttempts then
    ⟨message, 429, .auth⟩
  else if strContains ml "invalid username or password" || strContains ml "login failed" then
    ⟨message, 401, .auth⟩
  else if strContains ml "session expired" || strContains ml "please login again" then
    ⟨"Session expired. Please login again", 401, .session⟩
  else if strContains ml "no authentication cookies" || strContains ml "no credentials available" then
    ⟨"Authentication required. Please login first", 401, .auth⟩
  else if strContains ml "timeout" || strContains ml "network" || strContains ml "econnrefused" then
    ⟨"Network error. Please try again", 503, .network⟩
  else if strContains ml "unexpected response status" || strContains ml "failed to" then
    ⟨message, 502, .server⟩
  else
    ⟨message, 500, .unknown⟩

/-- The possible values reaching `handleApiError`: an already-classified
`ApiError`, a plain `Error` carrying a message, or a non-`Error` value. -/
inductive ErrValue where
  | classified (e : ApiError)
  | plainErr (message : String)
  | nonError
deriving DecidableEq, Repr

/-- `handleApiError` of `endpoints.ts` (it throws its result; we return it). -/
def handleApiError : ErrValue → ApiError
  | .classified e => e
  | .plainErr m => classifyErrorMessage m
  | .nonError => ⟨"An unexpected error occurred", 500, .unknown⟩

/-! A rule-table rendering of the spec's §4.5 classification contract,
used to state claim C2 as a refinement: first matching rule wins. -/

/-- One spec rule: a match predicate on the raw message and the produced
classified error (which may preserve or normalize the message). -/
structure SpecRule where
  applies : String → Bool
  result : String → ApiError

/-- Modelled from the spec: the ordered rule table of §4.5 / claim C2
(rules 2-8; rule 1 is the passthrough case and rule 9 the default). -/
def specRuleTable : List SpecRule :=
  [ ⟨fun m => strContains m thaiWrongIdPassword, fun m => ⟨m, 401, .auth⟩⟩,
    ⟨fun m => strContains m thaiTooManyAttempts, fun m => ⟨m, 429, .auth⟩⟩,
    ⟨fun m => strContains (lowerStr m) "invalid username or password" ||
              strContains (lowerStr m) "login failed",
      fun m => ⟨m, 401, .auth⟩⟩,
    ⟨fun m => strContains (lowerStr m) "session expired" ||
              strContains (lowerStr m) "please login again",
      fun _ => ⟨"Session expired. Please login again", 401, .session⟩⟩,
    ⟨fun m => strContains (lowerStr m) "no authentication cookies" ||
              strContains (lowerStr m) "no credentials available",
      fun _ => ⟨"Authentication required. Please login first", 401, .auth⟩⟩,
    ⟨fun m => strContains (lowerStr m) "timeout" || strContains (lowerStr m) "network" ||
              strContains (lowerStr m) "econnrefused",
      fun _ => ⟨"Network error. Please try again", 503, .network⟩⟩,
    ⟨fun m => strContains (lowerStr m) "unexpected response status" ||
              strContains (lowerStr m) "failed to",
      fun m => ⟨m, 502, .server⟩⟩ ]

/-- Modelled from the spec: first-match-wins evaluation of the rule table,
with the unconditional default rule (`unknown`, 500, message preserved). -/
def specClassify (m : String) : ApiError :=
  match specRuleTable.find? (fun r => r.applies m) with
  | some r => r.result m
  | none => ⟨m, 500, .unknown⟩

/-! ## Session manager (`src/api/manager/session-manager.ts`) -/

/-- The TypeScript `cookies` field has type `string | string[]`. -/
inductive CookieVal where
  | str (s : String)
  | arr (l : List String)
deriving DecidableEq, Repr

/-- JavaScript truthiness of a cookie value: the empty string is falsy,
every array (even the empty one) is truthy. -/
def CookieVal.truthy : CookieVal → Bool
  | .str s => s ≠ ""
  | .arr _ => true

/-- Truthiness of an optional header/cookie value (`undefined` is falsy). -/
def optTruthy : Option CookieVal → Bool
  | none => false
  | some c => c.truthy

/-- `SessionData` of `session-manager.ts`. -/
structure SessionData where
  cookies : CookieVal
  username : String
  password : String
  lastValidated : Nat
  loginTime : Nat
  oneClick : Option Bool
deriving DecidableEq, Repr

inductive SessionType where
  | bus
  | reg
deriving DecidableEq, Repr

/-- `SessionConfig` (all fields optional). -/
structure SessionConfig where
  validityDuration : Option Nat
  autoRelogin : Option Bool
  type : Option SessionType
deriving DecidableEq, Repr

/-- `Required<SessionConfig>`. -/
structure FullConfig where
  validityDuration : Nat
  autoRelogin : Bool
  type : SessionType
deriving DecidableEq, Repr

/-- `DEFAULT_CONFIG` of `session-manager.ts`. -/
def DEFAULT_CONFIG : FullConfig :=
  ⟨10 * 60 * 1000, true, .bus⟩

/-- The constructor's `{ ...DEFAULT_CONFIG, ...config }` spread: fields
present in `config` override the defaults. -/
def mergeConfig : Option SessionConfig → FullConfig
  | none => DEFAULT_CONFIG
  | some c =>
    ⟨c.validityDuration.getD DEFAULT_CONFIG.validityDuration,
     c.autoRelogin.getD DEFAULT_CONFIG.autoRelogin,
     c.type.getD DEFAULT_CONFIG.type⟩

/-- The per-instance state of one `SessionManager`: session data, the
login-in-flight flag, the pending login promise (by id), and the merged
config.  `loginPromise` holds the id of the shared in-flight promise. -/
structure ManagerState where
  sessionKey : String
  sessionData : Option SessionData
  isLoggingIn : Bool
  loginPromise : Option Nat
  config : FullConfig
deriving DecidableEq, Repr

/-- `new SessionManager(sessionKey, config)` (private constructor). -/
def newManager (key : String) (cfg : Option SessionConfig) : ManagerState :=
  ⟨key, none, false, none, mergeConfig cfg⟩

/-- `setSession`: replaces the whole session, `lastValidated = loginTime = now`. -/
def setSession (st : ManagerState) (username password : String) (cookies : CookieVal)
    (oneClick : Option Bool) (now : Nat) : ManagerState :=
  { st with sessionData := some ⟨cookies, username, password, now, now, oneClick⟩ }

/-- `hasSession`. -/
def hasSession (st : ManagerState) : Bool :=
  st.sessionData.isSome

/-- `isSessionValid`: false without session data, else the elapsed time since
`lastValidated` must be below `validityDuration`.  `Date.now()` is the
explicit `now` (truncated subtraction models the non-negative elapsed time). -/
def isSessionValid (st : ManagerState) (now : Nat) : Bool :=
  match st.sessionData with
  | none => false
  | some sd => now - sd.lastValidated < st.config.validityDuration

/-- `updateLastValidated`. -/
def updateLastValidated (st : ManagerState) (now : Nat) : ManagerState :=
  match st.sessionData with
  | none => st
  | some sd => { st with sessionData := some { sd with lastValidated := now } }

/-- `getCookies`: `this.sessionData?.cookies || null` — JavaScript `||`
turns a falsy cookie value (the empty string) into `null`. -/
def getCookies (st : ManagerState) : Option CookieVal :=
  match st.sessionData with
  | none => none
  | some sd => if sd.cookies.truthy then some sd.cookies else none

/-- `getCredentials`. -/
def getCredentials (st : ManagerState) : Option (String × String) :=
  match st.sessionData with
  | none => none
  | some sd => some (sd.username, sd.password)

/-- The instance-local effect of `clearSession` (the static
`removeInstance` side is modelled on the registry below). -/
def clearSessionLocal (st : ManagerState) : ManagerState :=
  { st with sessionData := none, isLoggingIn := false, loginPromise := none }

/-! The static `SessionManager.instances` map, as an association list in
insertion order (keys are unique because insertion happens only when the
key is absent). -/

/-- The process-wide `SessionManager.instances` map. -/
abbrev Registry : Type := List (String × ManagerState)

/-- `Map.get`: first binding of a key. -/
def rlookup : Registry → String → Option ManagerState
  | [], _ => none
  | (k, m) :: rest, key => if k = key then some m else rlookup rest key

/-- `SessionManager.getInstance(sessionKey, config)`: create the instance
only when the key is absent; the returned handle is the stored one. -/
def getInstance (reg : Registry) (key : String) (cfg : Option SessionConfig) : Registry :=
  match rlookup reg key with
  | some _ => reg
  | none => reg ++ [(key, newManager key cfg)]

/-- Point-update of the instance stored under a key (a method call on the
handle returned by `getInstance` mutates exactly that entry). -/
def rupdate : Registry → String → (ManagerState → ManagerState) → Registry
  | [], _, _ => []
  | (k, m) :: rest, key, f =>
    (if k = key then (k, f m) else (k, m)) :: rupdate rest key f

/-- `SessionManager.removeInstance` (also reached via `clearSession`):
deletes the key from the static map. -/
def rremove : Registry → String → Registry
  | [], _ => []
  | (k, m) :: rest, key =>
    if k = key then rremove rest key else (k, m) :: rremove rest key

/-- The config passed by `SessionManager.forBusApi`. -/
def busConfig : SessionConfig :=
  ⟨some (5 * 60 * 1000), some true, some .bus⟩

/-- The config passed by `SessionManager.forRegApi`. -/
def regConfig : SessionConfig :=
  ⟨some (10 * 60 * 1000), some false, some .reg⟩

/-- `SessionManager.forBusApi(sessionKey)`. -/
def forBusApi (reg : Registry) (key : String) : Registry :=
  getInstance reg key (some busConfig)

/-- `SessionManager.forRegApi(sessionKey)`. -/
def forRegApi (reg : Registry) (key : String) : Registry :=
  getInstance reg key (some regConfig)

/-- `setSession` invoked through the handle for `key`. -/
def setSessionAt (reg : Registry) (key : String) (username password : String)
    (cookies : CookieVal) (oneClick : Option Bool) (now : Nat) : Registry :=
  rupdate reg key (fun st => setSession st username password cookies oneClick now)

/-- The completion of a JavaScript call that may exhaust the call stack:
a normal return, or the engine's `RangeError` from stack overflow. -/
inductive JsResult (α : Type) where
  | value (a : α)
  | stackOverflow
deriving DecidableEq, Repr

/-- The `clearSession` / `removeInstance` pair (`session-manager.ts` lines
121-127 and 193-199) as one fuel-indexed function over the registry;
`fuel` is the remaining call-stack budget and the returned flag is `true`
when the call completed normally, `false` when the stack was exhausted
(the engine's `RangeError`).

`phase = true` is `clearSession()`: it resets the instance's fields
(`sessionData`, `isLoggingIn`, `loginPromise` — the handle aliases the
registry entry) and then calls the static `removeInstance(sessionKey)`.
`phase = false` is `removeInstance(sessionKey)`: when the key is
registered it first calls `instance.clearSession()` — which calls
`removeInstance` again — and only then would reach `instances.delete`, so
the delete executes only if the nested `clearSession` completes.  While
the key is registered the two phases recurse into each other and the
delete is unreachable. -/
def clearRemoveGo : Bool → Nat → Registry → String → Registry × Bool
  | _, 0, reg, _ => (reg, false)
  | true, fuel + 1, reg, key =>
    clearRemoveGo false fuel (rupdate reg key clearSessionLocal) key
  | false, fuel + 1, reg, key =>
    match rlookup reg key with
    | none => (reg, true)
    | some _ =>
      match clearRemoveGo true fuel reg key with
      | (reg2, true) => (rremove reg2 key, true)
      | (reg2, false) => (reg2, false)

/-- `clearSession` invoked through the handle for `key`, with call-stack
budget `fuel`. -/
def clearSessionAt (reg : Registry) (key : String) (fuel : Nat) : Registry × Bool :=
  clearRemoveGo true fuel reg key

/-- The salted key built by the `CmruBusApiClient` constructor:
`` `${sessionKey}_${Date.now()}_${Math.random().toString(36).substring(2)}` ``. -/
def mkUniqueSessionKey (sessionKey : String) (timestamp : Nat) (randSuffix : String) : String :=
  sessionKey ++ "_" ++ toString timestamp ++ "_" ++ randSuffix

/-- `new CmruBusApiClient(client, sessionKey)`: salts the key and registers
a bus-profile `SessionManager` under it; returns the new registry and the
salted key owned by the client. -/
def busClientInit (reg : Registry) (sessionKey : String) (timestamp : Nat)
    (randSuffix : String) : Registry × String :=
  let k := mkUniqueSessionKey sessionKey timestamp randSuffix
  (forBusApi reg k, k)

/-! ## Bus login protocol (`src/api/bus.api.ts`, `CmruBusApiClient.getSession`) -/

/-- The codes of `interpretLoginResponse`. -/
inductive LoginCode where
  | c1
  | c2
  | c3
  | c5
  | c8
  | empty
  | other
deriving DecidableEq, Repr

/-- `interpretLoginResponse(text)`. -/
def interpretLoginResponse (text : String) : LoginCode :=
  let t := strTrim text
  if t = "" then .empty
  else if t = "1" then .c1
  else if t = "2" then .c2
  else if t = "3" then .c3
  else if t = "5" then .c5
  else if t = "8" then .c8
  else .other

/-- `createLoginPayload(username, password, userType)` with the fixed
`:||:` delimiter (userType is its string value, "1" or "2"). -/
def createLoginPayload (username password userType : String) : String :=
  username ++ ":||:" ++ password ++ ":||:" ++ userType

/-- A login-check HTTP response as the protocol sees it: the body text and
the raw `set-cookie` header (absent, a string, or an array). -/
structure LoginHttpResp where
  text : String
  setCookie : Option CookieVal
deriving DecidableEq, Repr

/-- One network call as the protocol sees it: a response, or a thrown
transport error carrying a message. -/
inductive NetResult where
  | ok (resp : LoginHttpResp)
  | err (msg : String)
deriving DecidableEq, Repr

/-- The two network calls one loop iteration of `getSession` may make:
the POST to `/user/userloginchk` and the GET fallback. -/
structure AttemptNet where
  post : NetResult
  get : NetResult
deriving DecidableEq, Repr

/-- `JSON.stringify` on a string: wrap in quotes, escaping backslash and
quote (the control-character escapes are not needed for the bodies used
here). -/
def jsonStringify (s : String) : String :=
  "\x22" ++ String.join (s.data.map (fun c =>
    if c = '\x22' then "\\\x22"
    else if c = '\\' then "\\\\"
    else String.singleton c)) ++ "\x22"

def msgBlocked5 : String :=
  "Login blocked (code 5): ต้องปรับปรุงข้อมูลบุคลากรที่ ePersonal"

def msgBlocked8 : String :=
  "Login blocked (code 8): ให้บริการเฉพาะนักศึกษาวิทยาเขตแม่ริม"

def msgEmptyResp : String :=
  "Login failed: Empty response (invalid username/password or session issue)"

def msgOther (text : String) : String :=
  "Login failed: Unexpected response - " ++ jsonStringify text

/-- The `try` body of one loop iteration of `getSession`: the POST is
attempted first and a thrown POST error is swallowed (logged only, leaving
`code = EMPTY`, `successResponse = null`); when the code is `EMPTY` or
`OTHER` the GET fallback runs and a thrown GET error propagates.  The
result is the final `(code, successResponse, text)` triple. -/
def runAttemptCalls (net : AttemptNet) :
    Except String (LoginCode × Option LoginHttpResp × String) :=
  let postState : LoginCode × Option LoginHttpResp × String :=
    match net.post with
    | .ok r => (interpretLoginResponse r.text, some r, r.text)
    | .err _ => (.empty, none, "")
  if postState.1 = .empty ∨ postState.1 = .other then
    match net.get with
    | .ok r => .ok (interpretLoginResponse r.text, some r, r.text)
    | .err m => .error m
  else
    .ok postState

/-- The dispatch on the final response code (`getSession` lines 196-214):
success codes return the response (with or without `Set-Cookie` — the two
success returns are identical), the blocked codes, the empty response and
unexpected bodies throw their respective errors. -/
def attemptBody (net : AttemptNet) : Except String LoginHttpResp :=
  match runAttemptCalls net with
  | .error m => .error m
  | .ok (code, respOpt, text) =>
    match code with
    | .c1 | .c2 | .c3 =>
      match respOpt with
      | some r => .ok r
      | none => .error "Login succeeded but no response available"
    | .c5 => .error msgBlocked5
    | .c8 => .error msgBlocked8
    | .empty => .error msgEmptyResp
    | .other => .error (msgOther text)

/-- The retry loop of `getSession` (`for attempt = 1 .. retries`),
iterating over the remaining attempt numbers: a thrown error whose message
contains "timeout" is retried after a `1000 * attempt` ms backoff while
`attempt < retries`; any other thrown error propagates at once.  Returns
the result together with the list of backoff delays slept.  `oracle a` is
the network behaviour of loop iteration `a`; falling off the loop throws
"Login failed after all retry attempts". -/
def getSessionLoop (oracle : Nat → AttemptNet) (retries : Nat) :
    List Nat → Except String LoginHttpResp × List Nat
  | [] => (.error "Login failed after all retry attempts", [])
  | attempt :: rest =>
    match attemptBody (oracle attempt) with
    | .ok r => (.ok r, [])
    | .error m =>
      if strContains m "timeout" ∧ attempt < retries then
        let r := getSessionLoop oracle retries rest
        (r.1, 1000 * attempt :: r.2)
      else
        (.error m, [])

/-- `getSession(username, password, userType, retries)` after the bootstrap
phase: the loop runs `attempt = 1 .. retries`. -/
def getSessionRun (oracle : Nat → AttemptNet) (retries : Nat) :
    Except String LoginHttpResp × List Nat :=
  getSessionLoop oracle retries (List.range' 1 retries)

/-- `getSession`'s default `retries` parameter. -/
def defaultRetries : Nat := 3

/-- `cookie.split(";")[0].trim()`: the `name=value` part before the first
`;` of a `Set-Cookie` entry. -/
def cookieFirstPart (c : String) : String :=
  strTrim ⟨c.data.takeWhile (fun ch => ch ≠ ';')⟩

/-- `parseSetCookie` of `CmruBusApiClient` restricted to the array shape
axios delivers (`name=value` before the first `;` of each entry, empties
dropped, joined by "; "); the bootstrap cookie header is built with it. -/
def busParseSetCookieArr (raw : List String) : String :=
  String.intercalate "; " ((raw.map cookieFirstPart).filter (fun s => s ≠ ""))

/-- `getSession` including the bootstrap phase: the anonymous login page is
fetched first (best effort — a thrown error only warns) and its
`Set-Cookie` becomes the `cookieHeader` attached to the protocol requests.
The bootstrap cookie is returned alongside for the theorems; the source
keeps it in the local `cookieHeader` and never returns it. -/
def getSessionWithBoot (bootNet : NetResult) (oracle : Nat → AttemptNet)
    (retries : Nat) : String × (Except String LoginHttpResp × List Nat) :=
  let cookieHeader :=
    match bootNet with
    | .ok r =>
      match r.setCookie with
      | some (.arr l) => busParseSetCookieArr l
      | some (.str s) => busParseSetCookieArr [s]
      | none => ""
    | .err _ => ""
  (cookieHeader, getSessionRun oracle retries)

/-- `loginWith(credentials, userType)`: runs `getSession`; on success,
installs the response's `Set-Cookie` as the session only when that header
is present (truthy); otherwise the session manager is left untouched.  The
bootstrap cookie plays no part here. -/
def loginWith (st : ManagerState) (username password : String)
    (oracle : Nat → AttemptNet) (retries : Nat) (now : Nat) :
    ManagerState × Except String LoginHttpResp :=
  match (getSessionRun oracle retries).1 with
  | .error m => (st, .error m)
  | .ok r =>
    match r.setCookie with
    | some c =>
      if c.truthy then (setSession st username password c none now, .ok r)
      else (st, .ok r)
    | none => (st, .ok r)

/-- The `loginFn` closure of `CmruBusApiClient.ensureAuthenticated`: reads
the stored credentials, runs `getSession`, and throws
"Login failed - no cookies received" when the success response carries no
truthy `Set-Cookie`. -/
def busLoginFn (st : ManagerState) (oracle : Nat → AttemptNet) (retries : Nat) :
    Except String CookieVal :=
  match getCredentials st with
  | none => .error "No credentials available for auto re-login"
  | some _ =>
    match (getSessionRun oracle retries).1 with
    | .error m => .error m
    | .ok r =>
      match r.setCookie with
      | some c =>
        if c.truthy then .ok c else .error "Login failed - no cookies received"
      | none => .error "Login failed - no cookies received"

/-! ## Authenticated bus operations (`getScheduleRaw`, `validateSession`) -/

/-- A response to an authenticated page request: HTTP status, the
`Location` header, and the body when it is a string. -/
structure PageResp where
  status : Nat
  location : Option String
  body : Option String
deriving DecidableEq, Repr

/-- The content heuristic of `getScheduleRaw` (line 271): the body is a
login page when it mentions the login-check endpoint, or carries the
landing-page banner without the reservation-list marker. -/
def scheduleLooksLoggedOut (html : String) : Bool :=
  strContains html "userloginchk" ||
    (strContains html "ระบบจองการใช้บริการรถรับ-ส่ง" && !strContains html "รายการจอง")

/-- The response checks of `getScheduleRaw` (lines 257-276), given the
response to the schedule request: a 301/302 redirect to the anonymous
landing page, a non-200 status, and a body that looks like the login page
each throw; otherwise the response is returned. -/
def scheduleRespCheck (resp : PageResp) : Except String PageResp :=
  if (resp.status = 302 ∨ resp.status = 301) ∧
      (resp.location = some "https://cmrubus.cmru.ac.th/" ∨ resp.location = some "/") then
    .error "Session expired or invalid. Please login again."
  else if resp.status ≠ 200 then
    .error ("Unexpected response status: " ++ toString resp.status)
  else
    match resp.body with
    | some html =>
      if scheduleLooksLoggedOut html then
        .error "Session expired - received login page instead of schedule data"
      else
        .ok resp
    | none => .ok resp

/-- `getScheduleRaw(cookies, …)` with cookies passed explicitly: the
function body contains no session-manager mutation — it only issues the
request and runs the response checks — so the manager state is returned
unchanged on every path, including the session-expiry error paths. -/
def getScheduleRawOp (st : ManagerState) (resp : PageResp) :
    ManagerState × Except String PageResp :=
  (st, scheduleRespCheck resp)

/-- `validateSession()` at the registry level, for the handle's manager
state `st` stored under `key` (the handle aliases the registry entry, so
mutations go through `rupdate`): false without a session or cookies;
otherwise run the schedule probe; on success refresh `lastValidated` and
return true.  On an error mentioning "Session expired" the catch calls
`this.sessionManager.clearSession()` — the `clearRemoveGo` recursion — and
only if that call completes does the catch fall through to `return false`;
when the stack is exhausted instead, the `RangeError` escapes
`validateSession` with whatever registry state the recursion left behind.
On any other error the catch returns false without touching the session. -/
def validateSessionR (st : ManagerState) (reg : Registry) (key : String)
    (resp : PageResp) (now fuel : Nat) : Registry × JsResult Bool :=
  if !hasSession st then (reg, .value false)
  else
    match getCookies st with
    | none => (reg, .value false)
    | some _ =>
      match (getScheduleRawOp st resp).2 with
      | .ok _ => (rupdate reg key (fun s => updateLastValidated s now), .value true)
      | .error m =>
        if strContains m "Session expired" then
          match clearRemoveGo true fuel reg key with
          | (reg2, true) => (reg2, .value false)
          | (reg2, false) => (reg2, .stackOverflow)
        else (reg, .value false)

/-! ## Registrar login (`src/api/reg.api.ts`) -/

/-- `Reg.login` cookie installation (lines 339-353): prefer the validate
response's `Set-Cookie` list when nonempty, fall back to the bootstrap
cookies, and fail hard when neither exists.  `sessionCookies` and
`initialCookies` are the results of `parseSetCookieHeader` (which returns
`null` rather than an empty list when no cookies are present). -/
def regLoginCookies (sessionCookies initialCookies : Option (List String)) :
    Except String (List String) :=
  match sessionCookies with
  | some sc =>
    if sc.length > 0 then .ok sc
    else
      match initialCookies with
      | some ic => .ok ic
      | none => .error "Failed to obtain session cookies from login"
  | none =>
    match initialCookies with
    | some ic => .ok ic
    | none => .error "Failed to obtain session cookies from login"

/-- `Reg.login` state effect: install the chosen cookies via `setSession`,
or leave the manager untouched when the hard failure is thrown. -/
def regLogin (st : ManagerState) (username password : String)
    (sessionCookies initialCookies : Option (List String)) (now : Nat) :
    ManagerState × Except String Unit :=
  match regLoginCookies sessionCookies initialCookies with
  | .ok cs => (setSession st username password (.arr cs) none now, .ok ())
  | .error m => (st, .error m)

/-- `RegApiClient.login` (the first `reg.api.ts` class, lines 104-118):
after the validate POST it never reads the validate response's
`Set-Cookie`; it installs the bootstrap `initialCookies` when they exist
and otherwise throws.  `sessionCookies` is accepted here only to state the
claim against the same inputs as `regLogin`. -/
def regApiClientLogin (st : ManagerState) (username password : String)
    (_sessionCookies initialCookies : Option (List String)) (now : Nat) :
    ManagerState × Except String Unit :=
  match initialCookies with
  | some ic => (setSession st username password (.arr ic) none now, .ok ())
  | none => (st, .error "Failed to obtain session cookies from login page")

/-! ## Event-loop model of `ensureLoggedIn` (claim C1)

`ensureLoggedIn` contains no `await` between its validity/pending checks
and the installation of `this.loginPromise`; the async IIFE and the
`loginFn` inside it start running synchronously when the promise is
created.  That whole synchronous prefix is therefore one atomic step of
the event loop, `ensureLoggedInEntry`.  Promise resolution is a separate
step, `resolveLogin`. -/

/-- Where a caller of `ensureLoggedIn` stands after its entry step. -/
inductive CallerStatus where
  | returned
  | awaitingP (p : Nat)
  | failed (msg : String)
deriving DecidableEq, Repr

/-- The outcome a login promise eventually settles with. -/
inductive LoginOutcome where
  | success (cookies : CookieVal)
  | failure (msg : String)
deriving DecidableEq, Repr

/-- The world the interleaved callers share: the manager, the number of
`loginFn` invocations so far, and a fresh-promise counter. -/
structure LoginWorld where
  sm : ManagerState
  loginCount : Nat
  nextPromiseId : Nat
deriving DecidableEq, Repr

/-- The synchronous prefix of `ensureLoggedIn(loginFn, username?, password?)`
(lines 129-170): return at once when the session is valid; await the
existing promise when a login is in flight; throw when auto re-login is
disabled or no credentials exist; otherwise set `isLoggingIn`, invoke
`loginFn` (counted), and install the fresh promise that both this caller
and later ones await. -/
def ensureLoggedInEntry (w : LoginWorld) (args : Option (String × String))
    (now : Nat) : LoginWorld × CallerStatus :=
  if isSessionValid w.sm now then
    (w, .returned)
  else if w.sm.isLoggingIn && w.sm.loginPromise.isSome then
    (w, .awaitingP (w.sm.loginPromise.getD 0))
  else if !w.sm.config.autoRelogin then
    (w, .failed "Session expired and auto re-login is disabled. Please login again.")
  else
    match args.orElse (fun _ => getCredentials w.sm) with
    | none => (w, .failed "No credentials available for auto re-login")
    | some _ =>
      let p := w.nextPromiseId
      ({ sm := { w.sm with isLoggingIn := true, loginPromise := some p },
         loginCount := w.loginCount + 1,
         nextPromiseId := p + 1 },
       .awaitingP p)

/-- Resolution of the installed promise (the IIFE's `try/catch/finally`):
success installs the cookies via `setSession` with the captured
credentials; failure resets the session fields (the catch's
`clearSession()` call — whose `removeInstance` recursion then overflows
the stack, see `clearRemoveGo`, so the rejection every waiter observes is
that `RangeError`; all waiters still share one failure outcome); both
paths reset `isLoggingIn` and `loginPromise`. -/
def resolveLogin (w : LoginWorld) (username password : String)
    (o : LoginOutcome) (now : Nat) : LoginWorld :=
  match o with
  | .success c =>
    { w with sm :=
        { setSession w.sm username password c none now with
            isLoggingIn := false, loginPromise := none } }
  | .failure _ =>
    { w with sm := clearSessionLocal w.sm }

/-- A caller awaiting promise `p` observes the outcome the promise settled
with; callers that already returned or threw observe nothing new. -/
def observeOutcome (o : LoginOutcome) : CallerStatus → Option LoginOutcome
  | .awaitingP _ => some o
  | _ => none

/-- The world after an entry step installs the fresh login promise:
`isLoggingIn` set, the promise slot filled, `loginFn` invoked once. -/
def installLoginPromise (w : LoginWorld) : LoginWorld :=
  ⟨{ w.sm with isLoggingIn := true, loginPromise := some w.nextPromiseId },
   w.loginCount + 1, w.nextPromiseId + 1⟩

/-- N concurrent `ensureLoggedIn` calls, entering one after another on the
event loop at times `ts` (no promise resolution in between), each using
the stored credentials. -/
def runEntries (w : LoginWorld) : List Nat → LoginWorld × List CallerStatus
  | [] => (w, [])
  | t :: ts =>
    match ensureLoggedInEntry w none t with
    | (w1, s) =>
      match runEntries w1 ts with
      | (w2, ss) => (w2, s :: ss)

end CmruApi

namespace CmruApi

theorem rlookup_append_self : ∀ (reg : Registry) (key : String) (m : ManagerState),
    rlookup reg key = none → rlookup (reg ++ [(key, m)]) key = some m
  | [], key, m, _ => by simp [rlookup]
  | (k, v) :: rest, key, m, h => by
    by_cases hk : k = key
    · simp [rlookup, hk] at h
    · simp only [List.cons_append, rlookup, hk, if_false] at h ⊢
      exact rlookup_append_self rest key m h

theorem rlookup_append_ne : ∀ (reg : Registry) (k key : String) (m : ManagerState),
    k ≠ key → rlookup (reg ++ [(k, m)]) key = rlookup reg key
  | [], k, key, m, hne => by simp [rlookup, hne]
  | (k0, v) :: rest, k, key, m, hne => by
    by_cases hk : k0 = key
    · simp [rlookup, hk]
    · simp only [List.cons_append, rlookup, hk, if_false]
      exact rlookup_append_ne rest k key m hne

theorem rlookup_rupdate_ne : ∀ (reg : Registry) (k key : String) (f : ManagerState → ManagerState),
    k ≠ key → rlookup (rupdate reg k f) key = rlookup reg key
  | [], _, _, _, _ => rfl
  | (k0, v) :: rest, k, key, f, hne => by
    by_cases hk : k0 = k
    · have hk0 : k0 ≠ key := by rw [hk]; exact hne
      simp only [rupdate]
      rw [if_pos hk]
      simp only [rlookup]
      rw [if_neg hk0, if_neg hk0]
      exact rlookup_rupdate_ne rest k key f hne
    · simp only [rupdate]
      rw [if_neg hk]
      simp only [rlookup]
      by_cases hk2 : k0 = key
      · rw [if_pos hk2, if_pos hk2]
      · rw [if_neg hk2, if_neg hk2]
        exact rlookup_rupdate_ne rest k key f hne

theorem rlookup_rremove_ne : ∀ (reg : Registry) (k key : String),
    k ≠ key → rlookup (rremove reg k) key = rlookup reg key
  | [], _, _, _ => rfl
  | (k0, v) :: rest, k, key, hne => by
    by_cases hk : k0 = k
    · have hk0 : k0 ≠ key := by rw [hk]; exact hne
      simp only [rremove]
      rw [if_pos hk]
      have hrec := rlookup_rremove_ne rest k key hne
      rw [hrec]
      simp only [rlookup]
      rw [if_neg hk0]
    · simp only [rremove]
      rw [if_neg hk]
      simp only [rlookup]
      by_cases hk2 : k0 = key
      · rw [if_pos hk2, if_pos hk2]
      · rw [if_neg hk2, if_neg hk2]
        exact rlookup_rremove_ne rest k key hne

theorem rlookup_rupdate_self : ∀ (reg : Registry) (key : String)
    (f : ManagerState → ManagerState) (st : ManagerState),
    rlookup reg key = some st → rlookup (rupdate reg key f) key = some (f st)
  | [], _, _, _, h => by simp [rlookup] at h
  | (k0, v) :: rest, key, f, st, h => by
    by_cases hk : k0 = key
    · simp only [rlookup, hk, if_true] at h
      injection h with hv
      simp only [rupdate]
      rw [if_pos hk]
      simp only [rlookup]
      rw [if_pos hk, hv]
    · simp only [rlookup, hk, if_false] at h
      simp only [rupdate]
      rw [if_neg hk]
      simp only [rlookup]
      rw [if_neg hk]
      exact rlookup_rupdate_self rest key f st h

theorem rupdate_clear_idem : ∀ (reg : Registry) (key : String),
    rupdate (rupdate reg key clearSessionLocal) key clearSessionLocal
      = rupdate reg key clearSessionLocal
  | [], _ => rfl
  | (k0, v) :: rest, key => by
    by_cases hk : k0 = key
    · have hinner : rupdate ((k0, v) :: rest) key clearSessionLocal
          = (k0, clearSessionLocal v) :: rupdate rest key clearSessionLocal := by
        simp only [rupdate]
        rw [if_pos hk]
      have houter : rupdate ((k0, clearSessionLocal v) :: rupdate rest key clearSessionLocal)
            key clearSessionLocal
          = (k0, clearSessionLocal (clearSessionLocal v)) ::
              rupdate (rupdate rest key clearSessionLocal) key clearSessionLocal := by
        simp only [rupdate]
        rw [if_pos hk]
      rw [hinner, houter, rupdate_clear_idem rest key]
      rfl
    · have hinner : rupdate ((k0, v) :: rest) key clearSessionLocal
          = (k0, v) :: rupdate rest key clearSessionLocal := by
        simp only [rupdate]
        rw [if_neg hk]
      have houter : rupdate ((k0, v) :: rupdate rest key clearSessionLocal)
            key clearSessionLocal
          = (k0, v) :: rupdate (rupdate rest key clearSessionLocal) key clearSessionLocal := by
        simp only [rupdate]
        rw [if_neg hk]
      rw [hinner, houter, rupdate_clear_idem rest key]

/-- One step of the `removeInstance` phase when the key is registered: it
runs the nested `clearSession` and reaches the delete only on its normal
completion. -/
theorem clearRemoveGo_false_some (fuel : Nat) (reg : Registry) (key : String)
    (st : ManagerState) (h : rlookup reg key = some st) :
    clearRemoveGo false (fuel + 1) reg key
      = (match clearRemoveGo true fuel reg key with
         | (reg2, true) => (rremove reg2 key, true)
         | (reg2, false) => (reg2, false)) := by
  simp only [clearRemoveGo, h]

/-- While the key is registered, the `clearSession`/`removeInstance`
recursion never completes with any stack budget: the observable outcome is
the instance fields reset, the key still registered, and a stack
overflow. -/
theorem clearRemoveGo_stuck : ∀ (fuel : Nat) (reg : Registry) (key : String)
    (st : ManagerState), rlookup reg key = some st →
    clearRemoveGo true (fuel + 1) reg key = (rupdate reg key clearSessionLocal, false) := by
  intro fuel
  induction fuel using Nat.strong_induction_on with
  | _ fuel ih =>
    match fuel with
    | 0 =>
      intro reg key st hst
      rfl
    | 1 =>
      intro reg key st hst
      show clearRemoveGo false 1 (rupdate reg key clearSessionLocal) key = _
      have h2 := rlookup_rupdate_self reg key clearSessionLocal st hst
      rw [clearRemoveGo_false_some 0 _ key (clearSessionLocal st) h2]
      rfl
    | (k + 2) =>
      intro reg key st hst
      show clearRemoveGo false (k + 2) (rupdate reg key clearSessionLocal) key = _
      have h2 := rlookup_rupdate_self reg key clearSessionLocal st hst
      have hin := ih k (by omega) (rupdate reg key clearSessionLocal) key
        (clearSessionLocal st) h2
      rw [rupdate_clear_idem reg key] at hin
      rw [clearRemoveGo_false_some (k + 1) _ key (clearSessionLocal st) h2, hin]

/-- Every stage of the `clearSession`/`removeInstance` recursion on one key
leaves the registry entry of every other key unchanged — also mid-crash. -/
theorem clearRemoveGo_other_key : ∀ (fuel : Nat) (phase : Bool) (reg : Registry)
    (k1 k2 : String), k1 ≠ k2 →
    rlookup (clearRemoveGo phase fuel reg k1).1 k2 = rlookup reg k2 := by
  intro fuel
  induction fuel with
  | zero => intro phase reg k1 k2 _; cases phase <;> rfl
  | succ f ih =>
    intro phase reg k1 k2 hne
    cases phase with
    | true =>
      show rlookup (clearRemoveGo false f (rupdate reg k1 clearSessionLocal) k1).1 k2 = _
      rw [ih false (rupdate reg k1 clearSessionLocal) k1 k2 hne]
      exact rlookup_rupdate_ne reg k1 k2 clearSessionLocal hne
    | false =>
      cases hl : rlookup reg k1 with
      | none => simp only [clearRemoveGo, hl]
      | some st =>
        have hrec := ih true reg k1 k2 hne
        cases hgo : clearRemoveGo true f reg k1 with
        | mk reg2 done =>
          rw [hgo] at hrec
          cases done with
          | true =>
            rw [clearRemoveGo_false_some f reg k1 st hl, hgo]
            rw [rlookup_rremove_ne reg2 k1 k2 hne]
            exact hrec
          | false =>
            rw [clearRemoveGo_false_some f reg k1 st hl, hgo]
            exact hrec

end CmruApi

namespace CmruApi

/-- C8 counterexample: the claim says a session whose stored cookie set is
empty (empty string or empty array) is never reported valid.  In the code,
`isSessionValid` never consults the cookies: a session installed with an
empty cookie value is reported valid immediately after installation,
inside the validity window. -/
theorem empty_cookie_session_reported_valid :
    isSessionValid (setSession (newManager "bus_key" (some busConfig)) "user" "pw"
      (.str "") none 0) 0 = true ∧
    isSessionValid (setSession (newManager "bus_key" (some busConfig)) "user" "pw"
      (.arr []) none 0) 0 = true := by
  decide

/-- C8 amended: `isSessionValid` after `setSession` depends only on the
presence of session data and the elapsed time since installation, never on
the cookie value — with any cookies, including empty ones, it reports
exactly whether the elapsed time is below the configured validity window.
(The empty-cookie guard lives elsewhere: `getCookies` hides an empty-string
cookie value, and client operations fail without cookies.) -/
theorem isSessionValid_ignores_cookies (st : ManagerState) (u p : String)
    (cookies : CookieVal) (oc : Option Bool) (now t : Nat) :
    isSessionValid (setSession st u p cookies oc now) t
      = decide (t - now < st.config.validityDuration) := by
  simp [isSessionValid, setSession]

/-- C9: `getInstance` is idempotent per key.  A second call with the same
key returns the identical registry (hence the identical stored handle)
whatever config it passes — including a `forRegApi` call on a key created
by `forBusApi` — and when the key was absent the stored handle is the one
built from the first call's config. -/
theorem getInstance_idempotent_per_key (reg : Registry) (key : String)
    (cfg1 cfg2 : Option SessionConfig) :
    getInstance (getInstance reg key cfg1) key cfg2 = getInstance reg key cfg1 ∧
    (rlookup reg key = none →
      rlookup (getInstance reg key cfg1) key = some (newManager key cfg1)) ∧
    forRegApi (forBusApi reg key) key = forBusApi reg key ∧
    (rlookup reg key = none →
      rlookup (forBusApi reg key) key = some (newManager key (some busConfig))) := by
  have hlook : ∀ (c1 : Option SessionConfig), rlookup reg key = none →
      rlookup (getInstance reg key c1) key = some (newManager key c1) := by
    intro c1 h
    unfold getInstance
    rw [h]
    exact rlookup_append_self reg key _ h
  have hmain : ∀ (c1 c2 : Option SessionConfig),
      getInstance (getInstance reg key c1) key c2 = getInstance reg key c1 := by
    intro c1 c2
    cases h : rlookup reg key with
    | some m =>
      have hid : getInstance reg key c1 = reg := by unfold getInstance; rw [h]
      rw [hid]; unfold getInstance; rw [h]
    | none =>
      have hs : getInstance reg key c1 = reg ++ [(key, newManager key c1)] := by
        unfold getInstance; rw [h]
      rw [hs]
      unfold getInstance
      rw [rlookup_append_self reg key _ h]
  exact ⟨hmain cfg1 cfg2, hlook cfg1,
    hmain (some busConfig) (some regConfig), hlook (some busConfig)⟩

/-- C9 witness at a concrete registry, key and config pair. -/
theorem getInstance_idempotent_per_key_witness :
    getInstance (getInstance [] "bus_default" (some busConfig)) "bus_default" (some regConfig)
        = getInstance [] "bus_default" (some busConfig) ∧
    rlookup (getInstance [] "bus_default" (some busConfig)) "bus_default"
        = some (newManager "bus_default" (some busConfig)) := by
  have h := getInstance_idempotent_per_key [] "bus_default" (some busConfig) (some regConfig)
  exact ⟨h.1, h.2.1 rfl⟩

/-- C10: given that the two salted keys differ (the constructor salts with
`Date.now()` and a `Math.random()` suffix, so equal salts occur with
negligible probability but are not logically impossible), every
`CmruBusApiClient` owns a distinct `SessionManager` entry: the second
client's entry is created fresh with no session data (it can never observe
or resume the first client's session), creating it leaves the first
client's entry untouched, and `setSession`/`clearSession` through the
first client's key leave the second client's entry unchanged — for
`clearSession`, at every stage of its `removeInstance` recursion, crash
included. -/
theorem busClient_sessions_isolated
    (reg : Registry) (sessionKey : String) (t1 t2 : Nat) (r1 r2 : String)
    (u p u2 p2 : String) (c c2 : CookieVal) (oc oc2 : Option Bool) (now now2 : Nat)
    (hk : mkUniqueSessionKey sessionKey t1 r1 ≠ mkUniqueSessionKey sessionKey t2 r2)
    (h1 : rlookup reg (mkUniqueSessionKey sessionKey t1 r1) = none)
    (h2 : rlookup reg (mkUniqueSessionKey sessionKey t2 r2) = none) :
    rlookup ((busClientInit (setSessionAt (busClientInit reg sessionKey t1 r1).1
          (mkUniqueSessionKey sessionKey t1 r1) u p c oc now) sessionKey t2 r2).1)
        (mkUniqueSessionKey sessionKey t2 r2)
      = some (newManager (mkUniqueSessionKey sessionKey t2 r2) (some busConfig)) ∧
    (newManager (mkUniqueSessionKey sessionKey t2 r2) (some busConfig)).sessionData = none ∧
    rlookup ((busClientInit (setSessionAt (busClientInit reg sessionKey t1 r1).1
          (mkUniqueSessionKey sessionKey t1 r1) u p c oc now) sessionKey t2 r2).1)
        (mkUniqueSessionKey sessionKey t1 r1)
      = rlookup (setSessionAt (busClientInit reg sessionKey t1 r1).1
          (mkUniqueSessionKey sessionKey t1 r1) u p c oc now)
        (mkUniqueSessionKey sessionKey t1 r1) ∧
    (∀ (regAny : Registry),
      rlookup (setSessionAt regAny (mkUniqueSessionKey sessionKey t1 r1) u2 p2 c2 oc2 now2)
          (mkUniqueSessionKey sessionKey t2 r2)
        = rlookup regAny (mkUniqueSessionKey sessionKey t2 r2)) ∧
    (∀ (regAny : Registry) (fuel : Nat) (phase : Bool),
      rlookup (clearRemoveGo phase fuel regAny (mkUniqueSessionKey sessionKey t1 r1)).1
          (mkUniqueSessionKey sessionKey t2 r2)
        = rlookup regAny (mkUniqueSessionKey sessionKey t2 r2)) := by
  have e1 : (busClientInit reg sessionKey t1 r1).1
      = reg ++ [(mkUniqueSessionKey sessionKey t1 r1,
          newManager (mkUniqueSessionKey sessionKey t1 r1) (some busConfig))] := by
    show forBusApi reg (mkUniqueSessionKey sessionKey t1 r1) = _
    unfold forBusApi getInstance
    rw [h1]
  have l2 : rlookup (setSessionAt (busClientInit reg sessionKey t1 r1).1
      (mkUniqueSessionKey sessionKey t1 r1) u p c oc now)
      (mkUniqueSessionKey sessionKey t2 r2) = none := by
    unfold setSessionAt
    rw [rlookup_rupdate_ne _ _ _ _ hk, e1, rlookup_append_ne _ _ _ _ hk, h2]
  have e2 : (busClientInit (setSessionAt (busClientInit reg sessionKey t1 r1).1
        (mkUniqueSessionKey sessionKey t1 r1) u p c oc now) sessionKey t2 r2).1
      = (setSessionAt (busClientInit reg sessionKey t1 r1).1
          (mkUniqueSessionKey sessionKey t1 r1) u p c oc now)
        ++ [(mkUniqueSessionKey sessionKey t2 r2,
            newManager (mkUniqueSessionKey sessionKey t2 r2) (some busConfig))] := by
    show forBusApi _ (mkUniqueSessionKey sessionKey t2 r2) = _
    unfold forBusApi getInstance
    rw [l2]
  refine ⟨?_, rfl, ?_, ?_, ?_⟩
  · rw [e2]
    exact rlookup_append_self _ _ _ l2
  · rw [e2, rlookup_append_ne _ _ _ _ (Ne.symm hk)]
  · intro regAny
    unfold setSessionAt
    exact rlookup_rupdate_ne _ _ _ _ hk
  · intro regAny fuel phase
    exact clearRemoveGo_other_key fuel phase regAny _ _ hk

/-- C10 witness: two clients built from the same base key with distinct salts. -/
theorem busClient_sessions_isolated_witness :
    rlookup ((busClientInit (setSessionAt (busClientInit [] "bus" 0 "aa").1
          (mkUniqueSessionKey "bus" 0 "aa") "u" "p" (.str "c=1") none 0) "bus" 0 "bb").1)
        (mkUniqueSessionKey "bus" 0 "bb")
      = some (newManager (mkUniqueSessionKey "bus" 0 "bb") (some busConfig)) ∧
    (newManager (mkUniqueSessionKey "bus" 0 "bb") (some busConfig)).sessionData = none := by
  have h := busClient_sessions_isolated [] "bus" 0 0 "aa" "bb" "u" "p" "u" "p"
    (.str "c=1") (.str "c=1") none none 0 0 (by decide) rfl rfl
  exact ⟨h.1, h.2.1⟩

end CmruApi


namespace CmruApi

/-- C4 counterexample: the claim says that when `getScheduleRaw` detects
expiry via a redirect to the landing page or a login-page body, the stored
session is cleared at that point.  In the code the operation only throws:
on both content-based detection paths the session manager still holds the
session afterwards. -/
theorem schedule_expiry_detected_without_clearing :
    getScheduleRawOp (setSession (newManager "bus_key" (some busConfig)) "u" "p"
        (.str "a=1") none 0) ⟨302, some "/", none⟩
      = (setSession (newManager "bus_key" (some busConfig)) "u" "p" (.str "a=1") none 0,
         .error "Session expired or invalid. Please login again.") ∧
    hasSession (setSession (newManager "bus_key" (some busConfig)) "u" "p"
        (.str "a=1") none 0) = true ∧
    (getScheduleRawOp (setSession (newManager "bus_key" (some busConfig)) "u" "p"
        (.str "HlCk=9") none 0)
        ⟨200, none, some "ระบบจองการใช้บริการรถรับ-ส่งมหาวิทยาลัยราชภัฏเชียงใหม่"⟩).2
      = .error "Session expired - received login page instead of schedule data" ∧
    (getScheduleRawOp (setSession (newManager "bus_key" (some busConfig)) "u" "p"
        (.str "HlCk=9") none 0)
        ⟨200, none, some "ระบบจองการใช้บริการรถรับ-ส่งมหาวิทยาลัยราชภัฏเชียงใหม่"⟩).1.sessionData
      ≠ none := by
  refine ⟨by decide, by decide, by decide, by decide⟩

/-- C4 amended: `getScheduleRaw` itself never mutates the session manager —
on content-detected expiry it only fails with the session-expired error.
`validateSession`'s catch then attempts the clearing: it resets the
instance's session fields, but the source's `clearSession` mutually
recurses with `removeInstance` and never completes, so the registry keeps
the key (now holding the cleared fields) and a stack-overflow `RangeError`
escapes `validateSession` — `false` is never returned on the
session-expired path, with any stack budget. -/
theorem schedule_expiry_clear_amended :
    (∀ (st : ManagerState) (resp : PageResp), (getScheduleRawOp st resp).1 = st) ∧
    ∀ (reg : Registry) (key : String) (st : ManagerState) (resp : PageResp)
      (now fuel : Nat) (m : String),
      rlookup reg key = some st →
      hasSession st = true → (getCookies st).isSome = true →
      scheduleRespCheck resp = .error m → strContains m "Session expired" = true →
      validateSessionR st reg key resp now (fuel + 1)
          = (rupdate reg key clearSessionLocal, .stackOverflow) ∧
        rlookup (rupdate reg key clearSessionLocal) key = some (clearSessionLocal st) := by
  constructor
  · intro st resp; rfl
  · intro reg key st resp now fuel m halias hs hc herr hto
    refine ⟨?_, rlookup_rupdate_self reg key clearSessionLocal st halias⟩
    cases hcs : getCookies st with
    | none => rw [hcs] at hc; simp at hc
    | some ck =>
      have hstuck := clearRemoveGo_stuck fuel reg key st halias
      unfold validateSessionR getScheduleRawOp
      rw [hs]
      simp [hcs, herr, hto, hstuck]

/-- C4 amended witness: a redirect-to-landing response during
`validateSession` on a registered session — the fields are reset, the key
stays registered, and the call surfaces the stack overflow. -/
theorem schedule_expiry_clear_amended_witness :
    validateSessionR (setSession (newManager "bus_key" (some busConfig)) "u" "p"
        (.str "a=1") none 0)
        [("bus_key", setSession (newManager "bus_key" (some busConfig)) "u" "p"
          (.str "a=1") none 0)]
        "bus_key" ⟨302, some "/", none⟩ 5 8
      = (rupdate [("bus_key", setSession (newManager "bus_key" (some busConfig)) "u" "p"
            (.str "a=1") none 0)] "bus_key" clearSessionLocal,
         .stackOverflow) := by
  exact (schedule_expiry_clear_amended.2
    [("bus_key", setSession (newManager "bus_key" (some busConfig)) "u" "p"
      (.str "a=1") none 0)]
    "bus_key"
    (setSession (newManager "bus_key" (some busConfig)) "u" "p" (.str "a=1") none 0)
    ⟨302, some "/", none⟩ 5 7 "Session expired or invalid. Please login again."
    (by decide) (by decide) (by decide) (by decide) (by decide)).1

/-- C5 counterexample: the claim says that on a success code with no
`Set-Cookie`, the bootstrap cookie is promoted to the session, so a
success-coded login always installs a session.  In the code `loginWith`
skips `setSession` entirely when the success response has no `Set-Cookie`:
with a bootstrap cookie present ("boot=1") and a code-1 response without
cookies, no session is installed at all. -/
theorem success_code_without_setcookie_installs_no_session :
    (getSessionWithBoot (.ok ⟨"landing", some (.arr ["boot=1; Path=/"])⟩)
        (fun _ => ⟨.ok ⟨"1", none⟩, .ok ⟨"9", none⟩⟩) defaultRetries).1 = "boot=1" ∧
    (getSessionRun (fun _ => ⟨.ok ⟨"1", none⟩, .ok ⟨"9", none⟩⟩) defaultRetries).1
      = .ok ⟨"1", none⟩ ∧
    (loginWith (newManager "bus_key" (some busConfig)) "u" "p"
        (fun _ => ⟨.ok ⟨"1", none⟩, .ok ⟨"9", none⟩⟩) defaultRetries 0).1.sessionData
      = none := by
  refine ⟨by decide, by decide, by decide⟩

/-- C5 amended: on a success-coded login, `loginWith` promotes the
response's `Set-Cookie` to the session only when that header is present
and truthy; otherwise it leaves the session manager untouched — the
bootstrap cookie is never promoted — and the auto-relogin closure
(`ensureAuthenticated`'s `loginFn`) instead fails with
"Login failed - no cookies received". -/
theorem loginWith_cookie_promotion_amended (st : ManagerState) (u p : String)
    (oracle : Nat → AttemptNet) (retries now : Nat) (r : LoginHttpResp)
    (hok : (getSessionRun oracle retries).1 = .ok r) :
    (∀ c, r.setCookie = some c → c.truthy = true →
      loginWith st u p oracle retries now = (setSession st u p c none now, .ok r)) ∧
    (optTruthy r.setCookie = false →
      loginWith st u p oracle retries now = (st, .ok r)) ∧
    (optTruthy r.setCookie = false → (getCredentials st).isSome = true →
      busLoginFn st oracle retries = .error "Login failed - no cookies received") := by
  refine ⟨?_, ?_, ?_⟩
  · intro c hc htr
    simp [loginWith, hok, hc, htr]
  · intro hf
    cases hsc : r.setCookie with
    | none => simp [loginWith, hok, hsc]
    | some c =>
      rw [hsc] at hf
      simp only [optTruthy] at hf
      simp [loginWith, hok, hsc, hf]
  · intro hf hcred
    cases hcs : getCredentials st with
    | none => rw [hcs] at hcred; simp at hcred
    | some cr =>
      cases hsc : r.setCookie with
      | none => simp [busLoginFn, hcs, hok, hsc]
      | some c =>
        rw [hsc] at hf
        simp only [optTruthy] at hf
        simp [busLoginFn, hcs, hok, hsc, hf]

/-- C5 amended witness: a code-1 response carrying `Set-Cookie: sess=z`. -/
theorem loginWith_cookie_promotion_amended_witness :
    loginWith (newManager "bus_key" (some busConfig)) "u" "p"
        (fun _ => ⟨.ok ⟨"1", some (.str "sess=z")⟩, .ok ⟨"9", none⟩⟩) defaultRetries 7
      = (setSession (newManager "bus_key" (some busConfig)) "u" "p" (.str "sess=z") none 7,
         .ok ⟨"1", some (.str "sess=z")⟩) := by
  exact (loginWith_cookie_promotion_amended (newManager "bus_key" (some busConfig)) "u" "p"
      (fun _ => ⟨.ok ⟨"1", some (.str "sess=z")⟩, .ok ⟨"9", none⟩⟩) defaultRetries 7
      ⟨"1", some (.str "sess=z")⟩ (by decide)).1 (.str "sess=z") rfl (by decide)

/-- C6 counterexample: the claim says the registrar login installs the
`Set-Cookie` values extracted from the validate response.  The
`RegApiClient.login` implementation (also cited by the claim) never reads
the validate response's `Set-Cookie`: with validate cookies `sess=2` and
bootstrap cookies `boot=1` it installs `boot=1`. -/
theorem regApiClient_login_ignores_validate_setcookie :
    regApiClientLogin (newManager "reg" (some regConfig)) "u" "p"
        (some ["sess=2"]) (some ["boot=1"]) 0
      = (setSession (newManager "reg" (some regConfig)) "u" "p" (.arr ["boot=1"]) none 0,
         .ok ()) ∧
    (regApiClientLogin (newManager "reg" (some regConfig)) "u" "p"
        (some ["sess=2"]) (some ["boot=1"]) 0).1.sessionData
      ≠ some ⟨.arr ["sess=2"], "u", "p", 0, 0, none⟩ := by
  refine ⟨by decide, by decide⟩

/-- C6 amended: `Reg.login` behaves as claimed — it installs the validate
response's `Set-Cookie` when nonempty, falls back to the bootstrap
cookies, and otherwise fails with the no-session-cookies error leaving the
manager untouched; but `RegApiClient.login` ignores the validate
response's `Set-Cookie` entirely, installing the bootstrap cookies
whenever they exist and failing only when they are absent. -/
theorem reg_login_cookie_fallback_amended (st : ManagerState) (u p : String)
    (sc ic : Option (List String)) (now : Nat) :
    (∀ l, sc = some l → 0 < l.length →
      regLogin st u p sc ic now = (setSession st u p (.arr l) none now, .ok ())) ∧
    ((sc = none ∨ sc = some []) → ∀ l, ic = some l →
      regLogin st u p sc ic now = (setSession st u p (.arr l) none now, .ok ())) ∧
    ((sc = none ∨ sc = some []) → ic = none →
      regLogin st u p sc ic now = (st, .error "Failed to obtain session cookies from login")) ∧
    (∀ l, ic = some l →
      regApiClientLogin st u p sc ic now = (setSession st u p (.arr l) none now, .ok ())) ∧
    (ic = none →
      regApiClientLogin st u p sc ic now
        = (st, .error "Failed to obtain session cookies from login page")) := by
  refine ⟨?_, ?_, ?_, ?_, ?_⟩
  · intro l hsc hlen
    subst hsc
    unfold regLogin regLoginCookies
    simp [hlen]
  · intro hsc l hic
    subst hic
    unfold regLogin regLoginCookies
    rcases hsc with h | h <;> subst h <;> simp
  · intro hsc hic
    subst hic
    unfold regLogin regLoginCookies
    rcases hsc with h | h <;> subst h <;> simp
  · intro l hic
    subst hic
    unfold regApiClientLogin
    simp
  · intro hic
    subst hic
    unfold regApiClientLogin
    simp

/-- C6 amended witness: validate cookies `sess=2`, bootstrap `boot=1`. -/
theorem reg_login_cookie_fallback_amended_witness :
    regLogin (newManager "reg" (some regConfig)) "u" "p"
        (some ["sess=2"]) (some ["boot=1"]) 3
      = (setSession (newManager "reg" (some regConfig)) "u" "p" (.arr ["sess=2"]) none 3,
         .ok ()) ∧
    regApiClientLogin (newManager "reg" (some regConfig)) "u" "p"
        (some ["sess=2"]) (some ["boot=1"]) 3
      = (setSession (newManager "reg" (some regConfig)) "u" "p" (.arr ["boot=1"]) none 3,
         .ok ()) := by
  have h := reg_login_cookie_fallback_amended (newManager "reg" (some regConfig)) "u" "p"
    (some ["sess=2"]) (some ["boot=1"]) 3
  exact ⟨h.1 ["sess=2"] rfl (by decide), h.2.2.2.1 ["boot=1"] rfl⟩

end CmruApi

namespace CmruApi

/-- Helper for C3: when every loop iteration throws the same
timeout-bearing error, the loop walks all remaining attempts, sleeping
`1000 * attempt` before each retry, and surfaces the error at the bound. -/
theorem getSessionLoop_cons_timeout (oracle : Nat → AttemptNet) (retries a : Nat)
    (rest : List Nat) (m : String) (ha : attemptBody (oracle a) = .error m)
    (hm : strContains m "timeout" = true) (hlt : a < retries) :
    getSessionLoop oracle retries (a :: rest)
      = ((getSessionLoop oracle retries rest).1,
         1000 * a :: (getSessionLoop oracle retries rest).2) := by
  simp [getSessionLoop, ha, hm, hlt]

theorem getSessionLoop_uniform_timeout (oracle : Nat → AttemptNet) (retries : Nat)
    (m : String) (hm : strContains m "timeout" = true)
    (hall : ∀ a, attemptBody (oracle a) = .error m) :
    ∀ (n s : Nat), s + n = retries →
      getSessionLoop oracle retries (List.range' s (n + 1))
        = (.error m, (List.range' s n).map (fun a => 1000 * a)) := by
  intro n
  induction n with
  | zero =>
    intro s hs
    simp only [Nat.add_zero] at hs
    subst hs
    simp [List.range', getSessionLoop, hall, hm]
  | succ k ih =>
    intro s hs
    have hlt : s < retries := by omega
    have hrest := ih (s + 1) (by omega)
    have hcons : List.range' s (k + 1 + 1) = s :: List.range' (s + 1) (k + 1) := rfl
    rw [hcons, getSessionLoop_cons_timeout oracle retries s _ m (hall s) hm hlt, hrest]
    have hcons2 : List.range' s (k + 1) = s :: List.range' (s + 1) k := rfl
    rw [hcons2]
    simp

/-- C3 amended: during `getSession`, errors whose message contains
"timeout" are retried up to the configured bound (default 3) with linear
`1000 * attempt` backoff before the failure surfaces; an error whose
message does not contain "timeout" propagates on the first occurrence with
no delay — in particular the blocked codes 5 and 8 and the empty-response
messages never contain "timeout".  (An unexpected response body whose text
contains "timeout" is the exception forced by the counterexample: it is
retried, because the retry test is a substring check on the error
message.) -/
theorem getSession_retry_policy_amended (oracle : Nat → AttemptNet)
    (retries : Nat) (m : String) (hr : 1 ≤ retries) :
    ((∀ a, attemptBody (oracle a) = .error m) → strContains m "timeout" = true →
      getSessionRun oracle retries
        = (.error m, (List.range' 1 (retries - 1)).map (fun a => 1000 * a))) ∧
    (attemptBody (oracle 1) = .error m → strContains m "timeout" = false →
      getSessionRun oracle retries = (.error m, [])) ∧
    strContains msgBlocked5 "timeout" = false ∧
    strContains msgBlocked8 "timeout" = false ∧
    strContains msgEmptyResp "timeout" = false := by
  obtain ⟨r1, rfl⟩ : ∃ r1, retries = r1 + 1 := ⟨retries - 1, by omega⟩
  refine ⟨?_, ?_, by decide, by decide, by decide⟩
  · intro hall hm
    unfold getSessionRun
    rw [getSessionLoop_uniform_timeout oracle (r1 + 1) m hm hall r1 1 (by omega)]
    simp
  · intro h1 hm
    unfold getSessionRun
    simp [List.range', getSessionLoop, h1, hm]

/-- C3 amended witness: a uniform-timeout run at the default bound, and a code-5 run. -/
theorem getSession_retry_policy_amended_witness :
    getSessionRun (fun _ => ⟨.err "timeout of 30000ms exceeded",
        .err "timeout of 30000ms exceeded"⟩) defaultRetries
      = (.error "timeout of 30000ms exceeded", [1000, 2000]) ∧
    getSessionRun (fun _ => ⟨.ok ⟨"5", none⟩, .ok ⟨"9", none⟩⟩) defaultRetries
      = (.error msgBlocked5, []) := by
  constructor
  · have h := (getSession_retry_policy_amended
      (fun _ => ⟨.err "timeout of 30000ms exceeded", .err "timeout of 30000ms exceeded"⟩)
      defaultRetries "timeout of 30000ms exceeded" (by decide)).1
      (fun a => rfl) (by decide)
    rw [h]
    decide
  · have h := (getSession_retry_policy_amended
      (fun _ => ⟨.ok ⟨"5", none⟩, .ok ⟨"9", none⟩⟩)
      defaultRetries msgBlocked5 (by decide)).2.1 (by decide) (by decide)
    exact h

/-- C3 counterexample: the claim says unexpected response bodies propagate
immediately on the first occurrence without any retry.  A body whose text
contains "timeout" is embedded into the "Unexpected response" error
message, which therefore passes the `includes("timeout")` retry test: the
loop sleeps 1000 ms and retries instead of propagating. -/
theorem unexpected_body_with_timeout_is_retried :
    attemptBody ⟨.ok ⟨"request timeout page", none⟩, .ok ⟨"request timeout page", none⟩⟩
      = .error (msgOther "request timeout page") ∧
    strContains (msgOther "request timeout page") "timeout" = true ∧
    getSessionRun (fun a => if a = 1
        then ⟨.ok ⟨"request timeout page", none⟩, .ok ⟨"request timeout page", none⟩⟩
        else ⟨.ok ⟨"1", some (.str "sess=a")⟩, .ok ⟨"1", some (.str "sess=a")⟩⟩)
        defaultRetries
      = (.ok ⟨"1", some (.str "sess=a")⟩, [1000]) ∧
    getSessionRun (fun a => if a = 1
        then ⟨.ok ⟨"request timeout page", none⟩, .ok ⟨"request timeout page", none⟩⟩
        else ⟨.ok ⟨"1", some (.str "sess=a")⟩, .ok ⟨"1", some (.str "sess=a")⟩⟩)
        defaultRetries
      ≠ (.error (msgOther "request timeout page"), []) := by
  refine ⟨by decide, by decide, by decide, by decide⟩

end CmruApi

namespace CmruApi

/-- Helper for C1: flipping only `isLoggingIn`/`loginPromise` does not
change session validity (it depends only on `sessionData` and `config`). -/
theorem isSessionValid_flags (st : ManagerState) (b : Bool) (pr : Option Nat) (t : Nat) :
    isSessionValid { st with isLoggingIn := b, loginPromise := pr } t
      = isSessionValid st t := rfl

/-- Helper for C1: an `ensureLoggedIn` entry that finds the session invalid
while a login is in flight awaits the pending promise and changes nothing. -/
theorem ensureLoggedInEntry_pending (w : LoginWorld) (p : Nat) (t : Nat)
    (hl : w.sm.isLoggingIn = true) (hp : w.sm.loginPromise = some p)
    (hv : isSessionValid w.sm t = false) :
    ensureLoggedInEntry w none t = (w, .awaitingP p) := by
  unfold ensureLoggedInEntry
  rw [hv, hl, hp]
  simp

/-- Helper for C1: the installing entry step, from an idle world with an
invalid session, auto-relogin on, and stored credentials. -/
theorem ensureLoggedInEntry_installs (w : LoginWorld) (t : Nat) (cr : String × String)
    (hv : isSessionValid w.sm t = false)
    (hidle : w.sm.isLoggingIn = false)
    (hauto : w.sm.config.autoRelogin = true)
    (hcs : getCredentials w.sm = some cr) :
    ensureLoggedInEntry w none t = (installLoginPromise w, .awaitingP w.nextPromiseId) := by
  unfold ensureLoggedInEntry installLoginPromise
  rw [hv, hidle, hauto]
  simp [Option.orElse, hcs]

/-- Helper for C1: while a login is pending and the session stays invalid,
any sequence of entries is a no-op and every caller awaits the promise. -/
theorem runEntries_pending (w : LoginWorld) (p : Nat)
    (hl : w.sm.isLoggingIn = true) (hp : w.sm.loginPromise = some p) :
    ∀ ts : List Nat, (∀ t ∈ ts, isSessionValid w.sm t = false) →
      runEntries w ts = (w, List.replicate ts.length (.awaitingP p)) := by
  intro ts
  induction ts with
  | nil => intro _; rfl
  | cons t rest ih =>
    intro hall
    have hstep := ensureLoggedInEntry_pending w p t hl hp (hall t (by simp))
    have hrec := ih (fun x hx => hall x (by simp [hx]))
    unfold runEntries
    rw [hstep]
    dsimp only
    rw [hrec]
    simp [List.replicate]

/-- C1: single-flight login.  From an idle manager (no login in flight)
with auto-relogin enabled, stored credentials, and a session that is
invalid at every arrival time, N ≥ 1 concurrent `ensureLoggedIn` calls
interleaved on the event loop invoke the login function exactly once — the
first caller installs the shared promise and every later caller awaits
that same promise — and when the promise settles, every caller observes
the same success-or-failure outcome. -/
theorem ensureLoggedIn_single_flight (w : LoginWorld) (ts : List Nat)
    (hidle : w.sm.isLoggingIn = false)
    (hauto : w.sm.config.autoRelogin = true)
    (hcred : (getCredentials w.sm).isSome = true)
    (hstale : ∀ t ∈ ts, isSessionValid w.sm t = false)
    (hne : ts ≠ []) :
    (runEntries w ts).1.loginCount = w.loginCount + 1 ∧
    (runEntries w ts).2 = List.replicate ts.length (.awaitingP w.nextPromiseId) ∧
    ∀ o, (runEntries w ts).2.map (observeOutcome o)
      = List.replicate ts.length (some o) := by
  cases ts with
  | nil => exact absurd rfl hne
  | cons t rest =>
    cases hcs : getCredentials w.sm with
    | none => rw [hcs] at hcred; simp at hcred
    | some cr =>
      have hv := hstale t (by simp)
      have hstep := ensureLoggedInEntry_installs w t cr hv hidle hauto hcs
      have hrest := runEntries_pending (installLoginPromise w) w.nextPromiseId rfl rfl rest
        (fun x hx => by
          have : isSessionValid (installLoginPromise w).sm x = isSessionValid w.sm x := rfl
          rw [this]
          exact hstale x (by simp [hx]))
      have hrun : runEntries w (t :: rest)
          = ((installLoginPromise w),
             .awaitingP w.nextPromiseId ::
               List.replicate rest.length (.awaitingP w.nextPromiseId)) := by
        unfold runEntries
        rw [hstep]
        dsimp only
        rw [hrest]
      rw [hrun]
      refine ⟨rfl, by simp [List.replicate], ?_⟩
      intro o
      simp [List.replicate, observeOutcome]

/-- C1 witness: three concurrent callers on a stale bus session. -/
theorem ensureLoggedIn_single_flight_witness :
    (runEntries ⟨⟨"bus_k", some ⟨.str "c=1", "u", "p", 0, 0, none⟩, false, none,
        mergeConfig (some busConfig)⟩, 0, 0⟩ [400000, 400001, 400002]).1.loginCount = 1 ∧
    (runEntries ⟨⟨"bus_k", some ⟨.str "c=1", "u", "p", 0, 0, none⟩, false, none,
        mergeConfig (some busConfig)⟩, 0, 0⟩ [400000, 400001, 400002]).2
      = List.replicate 3 (.awaitingP 0) ∧
    (runEntries ⟨⟨"bus_k", some ⟨.str "c=1", "u", "p", 0, 0, none⟩, false, none,
        mergeConfig (some busConfig)⟩, 0, 0⟩ [400000, 400001, 400002]).2.map
        (observeOutcome (.failure "boom"))
      = List.replicate 3 (some (.failure "boom")) := by
  have h := ensureLoggedIn_single_flight
    ⟨⟨"bus_k", some ⟨.str "c=1", "u", "p", 0, 0, none⟩, false, none,
        mergeConfig (some busConfig)⟩, 0, 0⟩ [400000, 400001, 400002]
    rfl rfl rfl (by decide) (by decide)
  exact ⟨h.1, h.2.1, h.2.2 (.failure "boom")⟩

end CmruApi

namespace CmruApi

/-- C2: `handleApiError` applies the nine classification rules in priority
order with first match winning: an already-classified error passes through
unchanged, and for every plain error message the produced
(message, status, category) equals the first-match evaluation of the
spec's ordered rule table (Thai wrong-ID 401/auth, Thai too-many-attempts
429/auth, invalid-credentials 401/auth, session-expired 401/session
normalized, no-cookies 401/auth normalized, timeout/network 503/network
normalized, unexpected-status/failed-to 502/server preserving the message,
default 500/unknown preserving the message). -/
theorem handleApiError_follows_rule_table :
    (∀ e, handleApiError (.classified e) = e) ∧
    ∀ m, handleApiError (.plainErr m) = specClassify m := by
  refine ⟨fun e => rfl, fun m => ?_⟩
  show classifyErrorMessage m = specClassify m
  unfold classifyErrorMessage specClassify specRuleTable
  by_cases h1 : strContains m thaiWrongIdPassword = true
  · simp [h1, List.find?]
  · simp only [Bool.not_eq_true] at h1
    by_cases h2 : strContains m thaiTooManyAttempts = true
    · simp [h1, h2, List.find?]
    · simp only [Bool.not_eq_true] at h2
      by_cases h3 : (strContains (lowerStr m) "invalid username or password" ||
          strContains (lowerStr m) "login failed") = true
      · simp [h1, h2, h3, List.find?]
      · simp only [Bool.not_eq_true] at h3
        by_cases h4 : (strContains (lowerStr m) "session expired" ||
            strContains (lowerStr m) "please login again") = true
        · simp [h1, h2, h3, h4, List.find?]
        · simp only [Bool.not_eq_true] at h4
          by_cases h5 : (strContains (lowerStr m) "no authentication cookies" ||
              strContains (lowerStr m) "no credentials available") = true
          · simp [h1, h2, h3, h4, h5, List.find?]
          · simp only [Bool.not_eq_true] at h5
            by_cases h6 : (strContains (lowerStr m) "timeout" ||
                strContains (lowerStr m) "network" ||
                strContains (lowerStr m) "econnrefused") = true
            · simp [h1, h2, h3, h4, h5, h6, List.find?]
            · simp only [Bool.not_eq_true] at h6
              by_cases h7 : (strContains (lowerStr m) "unexpected response status" ||
                  strContains (lowerStr m) "failed to") = true
              · simp [h1, h2, h3, h4, h5, h6, h7, List.find?]
              · simp only [Bool.not_eq_true] at h7
                simp [h1, h2, h3, h4, h5, h6, h7, List.find?]

/-- C7 counterexample: classification is not idempotent at the message
level.  "No credentials available for auto re-login" classifies as
(auth, 401) with normalized message "Authentication required. Please login
first", but classifying that normalized message yields (unknown, 500). -/
theorem classify_message_idempotence_fails :
    handleApiError (.plainErr "No credentials available for auto re-login") =
      ⟨"Authentication required. Please login first", 401, .auth⟩ ∧
    handleApiError (.plainErr "Authentication required. Please login first") =
      ⟨"Authentication required. Please login first", 500, .unknown⟩ := by
  decide

/-- C7 amended: classification is idempotent at the object level —
re-classifying the classified `ApiError` object returns it unchanged for
every input — and re-classifying the produced message text preserves the
(category, status) pair for every message except those normalized to
"Authentication required. Please login first" (the rule the
counterexample exhibits). -/
theorem handleApiError_idempotent_amended :
    (∀ v, handleApiError (.classified (handleApiError v)) = handleApiError v) ∧
    ∀ m, (classifyErrorMessage m).message ≠ "Authentication required. Please login first" →
      (classifyErrorMessage (classifyErrorMessage m).message).errorType
          = (classifyErrorMessage m).errorType ∧
      (classifyErrorMessage (classifyErrorMessage m).message).statusCode
          = (classifyErrorMessage m).statusCode := by
  refine ⟨fun v => rfl, fun m hne => ?_⟩
  by_cases h1 : strContains m thaiWrongIdPassword = true
  · have hm : classifyErrorMessage m = ⟨m, 401, .auth⟩ := by
      unfold classifyErrorMessage; simp [h1]
    rw [hm]; rw [hm]; exact ⟨rfl, rfl⟩
  · simp only [Bool.not_eq_true] at h1
    by_cases h2 : strContains m thaiTooManyAttempts = true
    · have hm : classifyErrorMessage m = ⟨m, 429, .auth⟩ := by
        unfold classifyErrorMessage; simp [h1, h2]
      rw [hm]; rw [hm]; exact ⟨rfl, rfl⟩
    · simp only [Bool.not_eq_true] at h2
      by_cases h3 : (strContains (lowerStr m) "invalid username or password" ||
          strContains (lowerStr m) "login failed") = true
      · have hm : classifyErrorMessage m = ⟨m, 401, .auth⟩ := by
          unfold classifyErrorMessage; simp [h1, h2, h3]
        rw [hm]; rw [hm]; exact ⟨rfl, rfl⟩
      · simp only [Bool.not_eq_true] at h3
        by_cases h4 : (strContains (lowerStr m) "session expired" ||
            strContains (lowerStr m) "please login again") = true
        · have hm : classifyErrorMessage m =
              ⟨"Session expired. Please login again", 401, .session⟩ := by
            unfold classifyErrorMessage; simp [h1, h2, h3, h4]
          rw [hm]
          exact ⟨by decide, by decide⟩
        · simp only [Bool.not_eq_true] at h4
          by_cases h5 : (strContains (lowerStr m) "no authentication cookies" ||
              strContains (lowerStr m) "no credentials available") = true
          · have hm : classifyErrorMessage m =
                ⟨"Authentication required. Please login first", 401, .auth⟩ := by
              unfold classifyErrorMessage; simp [h1, h2, h3, h4, h5]
            rw [hm] at hne
            exact absurd rfl hne
          · simp only [Bool.not_eq_true] at h5
            by_cases h6 : (strContains (lowerStr m) "timeout" ||
                strContains (lowerStr m) "network" ||
                strContains (lowerStr m) "econnrefused") = true
            · have hm : classifyErrorMessage m =
                  ⟨"Network error. Please try again", 503, .network⟩ := by
                unfold classifyErrorMessage; simp [h1, h2, h3, h4, h5, h6]
              rw [hm]
              exact ⟨by decide, by decide⟩
            · simp only [Bool.not_eq_true] at h6
              by_cases h7 : (strContains (lowerStr m) "unexpected response status" ||
                  strContains (lowerStr m) "failed to") = true
              · have hm : classifyErrorMessage m = ⟨m, 502, .server⟩ := by
                  unfold classifyErrorMessage; simp [h1, h2, h3, h4, h5, h6, h7]
                rw [hm]; rw [hm]; exact ⟨rfl, rfl⟩
              · simp only [Bool.not_eq_true] at h7
                have hm : classifyErrorMessage m = ⟨m, 500, .unknown⟩ := by
                  unfold classifyErrorMessage; simp [h1, h2, h3, h4, h5, h6, h7]
                rw [hm]; rw [hm]; exact ⟨rfl, rfl⟩

/-- C7 amended witness: a timeout message, whose reclassification agrees. -/
theorem handleApiError_idempotent_amended_witness :
    (classifyErrorMessage "connection timeout").message ≠
        "Authentication required. Please login first" ∧
    (classifyErrorMessage (classifyErrorMessage "connection timeout").message).errorType
        = (classifyErrorMessage "connection timeout").errorType ∧
    (classifyErrorMessage (classifyErrorMessage "connection timeout").message).statusCode
        = (classifyErrorMessage "connection timeout").statusCode :=
  ⟨by decide, handleApiError_idempotent_amended.2 "connection timeout" (by decide)⟩

end CmruApi
